import Mathlib

/-!
Verification of the HTTP request/response helper (`ApiHelper`) and its
fixture-based provisioning lifecycle from the Playwright-API-Fixtures
repository, as a shallow embedding in Lean 4.

The fixture wiring (`fixtures/api-fixture.ts`), the Zod login schema
(`schemas/schema.ts`) and the test expectations are embedded from the
source.  The `ApiHelper` class itself is referenced throughout the
repository but its source file is not part of the corpus, so its
operations are modelled from the specification (section 4.1), each such
definition marked `Modelled from the spec:` in its doc comment.
-/

namespace PWApi

/-- A JSON value, the shape of every payload flowing through the helper:
request bodies, parsed response bodies, and the raw response metadata. -/
inductive Json where
  | null
  | bool (b : Bool)
  | num (n : Int)
  | str (s : String)
  | arr (elements : List Json)
  | obj (fields : List (String × Json))

/-- First-match association lookup on a JSON object field list. -/
def lookupField : List (String × Json) → String → Option Json
  | [], _ => none
  | (k, v) :: rest, key => if k = key then some v else lookupField rest key

/-- JavaScript property access `j.key`: a present field yields its value,
anything else (missing field, non-object) yields `undefined`, modelled as
`none`. -/
def jsonGet (j : Json) (key : String) : Option Json :=
  match j with
  | .obj fields => lookupField fields key
  | _ => none

/-- UTF-8 encoding of one character as its list of byte values. -/
def utf8Bytes (c : Char) : List Nat :=
  let n := c.toNat
  if n < 128 then [n]
  else if n < 2048 then [192 + n / 64, 128 + n % 64]
  else if n < 65536 then [224 + n / 4096, 128 + (n / 64) % 64, 128 + n % 64]
  else [240 + n / 262144, 128 + (n / 4096) % 64, 128 + (n / 64) % 64, 128 + n % 64]

/-- Uppercase hexadecimal digit for a value below 16. -/
def hexDigit (n : Nat) : Char :=
  if n < 10 then Char.ofNat (48 + n) else Char.ofNat (55 + n)

/-- Percent-encoding of one byte value, e.g. 32 becomes "%20". -/
def percentByte (n : Nat) : String :=
  String.mk [Char.ofNat 37, hexDigit (n / 16), hexDigit (n % 16)]

/-- Bytes left verbatim by `encodeURIComponent`: ASCII alphanumerics and
the marks - _ . ! ~ * ( ) and the apostrophe (39). -/
def unreservedByte (n : Nat) : Bool :=
  (48 ≤ n && n ≤ 57) || (65 ≤ n && n ≤ 90) || (97 ≤ n && n ≤ 122)
    || n == 45 || n == 95 || n == 46 || n == 33 || n == 126
    || n == 42 || n == 39 || n == 40 || n == 41

/-- Modelled from the spec: JavaScript `encodeURIComponent`, applied by the
missing `ApiHelper` source to each query-parameter value ("each entry
appended as key=encodeURIComponent(value)").  Unreserved bytes pass
through, every other UTF-8 byte is percent-encoded. -/
def encodeURIComponent (s : String) : String :=
  s.data.foldl
    (fun acc c =>
      (utf8Bytes c).foldl
        (fun a n => if unreservedByte n then a.push (Char.ofNat n) else a ++ percentByte n)
        acc)
    ""

/-- A scalar query-parameter value as supplied by callers (e.g. page: 1). -/
inductive QueryVal where
  | str (s : String)
  | num (n : Int)
deriving DecidableEq

/-- JavaScript string conversion of a scalar query-parameter value. -/
def QueryVal.render : QueryVal → String
  | .str s => s
  | .num n => toString n

/-- Modelled from the spec: the `&`-joined query string built from the
queryParams mapping, one `key=encodeURIComponent(value)` entry per pair,
in insertion order. -/
def buildQueryString (queryParams : List (String × QueryVal)) : String :=
  String.intercalate "&"
    (queryParams.map (fun p => p.1 ++ "=" ++ encodeURIComponent p.2.render))

/-- Modelled from the spec: the final request URL — the given URL with a
`?`-prefixed query string appended when queryParams is non-empty, and
unchanged when it is empty or absent. -/
def buildUrl (url : String) (queryParams : List (String × QueryVal)) : String :=
  if queryParams.isEmpty then url else url ++ "?" ++ buildQueryString queryParams

/-- Case-insensitive header-name comparison, per HTTP semantics. -/
def headerKeyMatches (a b : String) : Bool :=
  a.data.map Char.toLower == b.data.map Char.toLower

/-- Whether the caller-supplied headers already contain the given name. -/
def hasHeaderKey (headers : List (String × String)) (key : String) : Bool :=
  headers.any (fun p => headerKeyMatches p.1 key)

/-- Modelled from the spec: the effective header set of a request — the
caller's headers merged with the default `Content-Type: application/json`
when a body is present, the caller's entry overriding the default on key
collision. -/
def effectiveHeaders (headers : List (String × String)) (hasBody : Bool) :
    List (String × String) :=
  if hasBody && !hasHeaderKey headers "Content-Type" then
    ("Content-Type", "application/json") :: headers
  else headers

/-- The five HTTP verbs the helper exposes, one method per verb. -/
inductive Method where
  | GET
  | POST
  | PUT
  | PATCH
  | DELETE
deriving DecidableEq

/-- The request descriptor of the data model: method, final URL, effective
headers, and optional body. -/
structure Request where
  method : Method
  url : String
  headers : List (String × String)
  body : Option Json

/-- A network/connection-level failure (DNS, timeout, connection reset). -/
structure TransportError where
  message : String
deriving DecidableEq

/-- The outcome of one network round trip as seen by the helper: either an
HTTP response (any status code, body `none` when not JSON-parseable) or a
transport-level failure. -/
inductive TransportOutcome where
  | success (status : Nat) (jsonBody : Option Json)
  | failure (error : TransportError)

/-- The ambient network, an oracle mapping each request to its outcome. -/
def Transport : Type := Request → TransportOutcome

/-- The raw response metadata object returned when the body is not
JSON-parseable; it carries the HTTP status (the `error API` test reads
`response.status`). -/
def rawResponse (status : Nat) : Json :=
  Json.obj [("status", Json.num status)]

/-- Modelled from the spec: issuing one HTTP call.  Any response — 2xx or
not — is surfaced as an ordinary payload (the parsed JSON body, or the raw
response metadata when the body is not JSON-parseable); only a
transport-level failure produces an error, propagated unchanged, with no
retry. -/
def sendRequest (t : Transport) (req : Request) : Except TransportError Json :=
  match t req with
  | .success status jsonBody =>
      match jsonBody with
      | some payload => .ok payload
      | none => .ok (rawResponse status)
  | .failure e => .error e

/-- Modelled from the spec: the request constructed by `getRequest` (no
body, so no default Content-Type). -/
def getRequestDescriptor (url : String) (headers : List (String × String))
    (queryParams : List (String × QueryVal)) : Request :=
  { method := .GET, url := buildUrl url queryParams,
    headers := effectiveHeaders headers false, body := none }

/-- Modelled from the spec: the request constructed by `postRequest`. -/
def postRequestDescriptor (url : String) (headers : List (String × String))
    (body : Json) (queryParams : List (String × QueryVal)) : Request :=
  { method := .POST, url := buildUrl url queryParams,
    headers := effectiveHeaders headers true, body := some body }

/-- Modelled from the spec: the request constructed by `putRequest`. -/
def putRequestDescriptor (url : String) (headers : List (String × String))
    (body : Json) (queryParams : List (String × QueryVal)) : Request :=
  { method := .PUT, url := buildUrl url queryParams,
    headers := effectiveHeaders headers true, body := some body }

/-- Modelled from the spec: the request constructed by `patchRequest`. -/
def patchRequestDescriptor (url : String) (headers : List (String × String))
    (body : Json) (queryParams : List (String × QueryVal)) : Request :=
  { method := .PATCH, url := buildUrl url queryParams,
    headers := effectiveHeaders headers true, body := some body }

/-- Modelled from the spec: the request constructed by `deleteRequest`
(body optional). -/
def deleteRequestDescriptor (url : String) (headers : List (String × String))
    (body : Option Json) (queryParams : List (String × QueryVal)) : Request :=
  { method := .DELETE, url := buildUrl url queryParams,
    headers := effectiveHeaders headers body.isSome, body := body }

/-- Modelled from the spec: `ApiHelper.getRequest`. -/
def getRequest (t : Transport) (url : String) (headers : List (String × String))
    (queryParams : List (String × QueryVal)) : Except TransportError Json :=
  sendRequest t (getRequestDescriptor url headers queryParams)

/-- Modelled from the spec: `ApiHelper.postRequest`. -/
def postRequest (t : Transport) (url : String) (headers : List (String × String))
    (body : Json) (queryParams : List (String × QueryVal)) : Except TransportError Json :=
  sendRequest t (postRequestDescriptor url headers body queryParams)

/-- Modelled from the spec: `ApiHelper.putRequest`. -/
def putRequest (t : Transport) (url : String) (headers : List (String × String))
    (body : Json) (queryParams : List (String × QueryVal)) : Except TransportError Json :=
  sendRequest t (putRequestDescriptor url headers body queryParams)

/-- Modelled from the spec: `ApiHelper.patchRequest`. -/
def patchRequest (t : Transport) (url : String) (headers : List (String × String))
    (body : Json) (queryParams : List (String × QueryVal)) : Except TransportError Json :=
  sendRequest t (patchRequestDescriptor url headers body queryParams)

/-- Modelled from the spec: `ApiHelper.deleteRequest`. -/
def deleteRequest (t : Transport) (url : String) (headers : List (String × String))
    (body : Option Json) (queryParams : List (String × QueryVal)) : Except TransportError Json :=
  sendRequest t (deleteRequestDescriptor url headers body queryParams)

/-- An `ApiHelper` instance.  The class holds no request state; the
instance identifier models JavaScript object identity so that distinctness
of separately constructed instances is expressible. -/
structure ApiHelper where
  instanceId : Nat
deriving DecidableEq

/-- `new ApiHelper()`: allocate a fresh instance, advancing the allocation
counter. -/
def ApiHelper.new (alloc : Nat) : ApiHelper × Nat :=
  (⟨alloc⟩, alloc + 1)

/-- The login endpoint used by the authenticated fixture
(`fixtures/api-fixture.ts`). -/
def loginUrl : String := "https://dummyjson.com/auth/login"

/-- The fixed credentials from `testData/loginUser.json`. -/
def loginData : Json :=
  Json.obj [("username", Json.str "emilys"), ("password", Json.str "emilyspass")]

/-- The record the `authenticatedApiHelper` fixture yields to the test
body: the helper instance, the two tokens read off the login response
(`none` models `undefined` when the field is absent), and the raw login
response. -/
structure AuthenticatedApiHelper where
  helper : ApiHelper
  accessToken : Option Json
  refreshToken : Option Json
  response : Json

/-- The single request the authenticated fixture issues: a POST to the
login endpoint with `Content-Type: application/json` and the fixed
credentials as body, no query parameters. -/
def loginRequest : Request :=
  postRequestDescriptor loginUrl [("Content-Type", "application/json")] loginData []

/-- The `apiHelper` fixture body (`fixtures/api-fixture.ts`, lines 16-19):
construct a fresh `ApiHelper` and yield it, issuing no request of its own.
Returns the yielded instance, the allocation counter after, and the list
of requests issued before yielding. -/
def apiHelperFixture (alloc : Nat) : ApiHelper × Nat × List Request :=
  let p := ApiHelper.new alloc
  (p.1, p.2, [])

/-- The setup phase of the `authenticatedApiHelper` fixture
(`fixtures/api-fixture.ts`, lines 21-35): construct a fresh `ApiHelper`,
POST the credentials to the login endpoint, and on success build the
yielded record with `accessToken`/`refreshToken` read off the response.
Returns the setup result, the allocation counter after, and the list of
requests issued. -/
def authenticatedApiHelperSetup (t : Transport) (alloc : Nat) :
    Except TransportError AuthenticatedApiHelper × Nat × List Request :=
  let p := ApiHelper.new alloc
  match sendRequest t loginRequest with
  | .ok response =>
      (.ok { helper := p.1,
             accessToken := jsonGet response "accessToken",
             refreshToken := jsonGet response "refreshToken",
             response := response }, p.2, [loginRequest])
  | .error e => (.error e, p.2, [loginRequest])

/-- How the consumer (test body) finishes: normal completion, an assertion
failure, or an unexpected fault. -/
inductive ConsumerOutcome where
  | normal
  | assertionFailure
  | unexpectedFault
deriving DecidableEq

/-- Observable events of one fixture-wrapped test run, in order. -/
inductive FixtureEvent where
  | clientCreated
  | loginIssued
  | consumerStarted
  | consumerFinished
  | teardownRun
  | setupFailed
deriving DecidableEq

/-- The provisioning lifecycle states of the specification's state
machine. -/
inductive ProvisionState where
  | UNSTARTED
  | LOGGING_IN
  | READY
  | TEARDOWN
  | FAILED
  | DONE
deriving DecidableEq

/-- The reported result of a fixture-wrapped test run.  A setup error is a
distinct constructor from a consumer assertion failure or fault. -/
inductive TestResult where
  | passed
  | consumerAssertionFailed
  | consumerFaulted
  | setupError (e : TransportError)
deriving DecidableEq

/-- Modelled from the spec: the test runner executing the
`authenticatedApiHelper` fixture around a consumer (the fixture scoping
itself is the external runner's; the setup it wraps is the source's).  If
setup raises, the consumer never runs and the run reports a setup error;
otherwise the consumer runs with the yielded record and the fixture's
cleanup phase runs once afterward, whatever the consumer's outcome.
Returns the event trace, the lifecycle state path, and the result. -/
def runAuthenticatedFixture (t : Transport) (alloc : Nat)
    (consumer : AuthenticatedApiHelper → ConsumerOutcome) :
    List FixtureEvent × List ProvisionState × TestResult :=
  match (authenticatedApiHelperSetup t alloc).1 with
  | .error e =>
      ([.clientCreated, .loginIssued, .setupFailed],
       [.UNSTARTED, .LOGGING_IN, .FAILED, .DONE],
       .setupError e)
  | .ok ctx =>
      let result :=
        match consumer ctx with
        | .normal => TestResult.passed
        | .assertionFailure => TestResult.consumerAssertionFailed
        | .unexpectedFault => TestResult.consumerFaulted
      ([.clientCreated, .loginIssued, .consumerStarted, .consumerFinished, .teardownRun],
       [.UNSTARTED, .LOGGING_IN, .READY, .TEARDOWN, .DONE],
       result)

/-- One issue reported by the schema validator: the path of the offending
field, an issue code, and (for strictness violations) the unrecognized
keys. -/
structure ZodIssue where
  path : List String
  code : String
  keys : List String
deriving DecidableEq

/-- The declared keys of `LOGIN_API_SCHEMA` (`schemas/schema.ts`). -/
def LOGIN_SCHEMA_KEYS : List String :=
  ["accessToken", "refreshToken", "id", "username", "email",
   "firstName", "lastName", "gender", "image"]

/-- `z.string()` applied to field `key`: missing or non-string fails. -/
def checkStringField (fields : List (String × Json)) (key : String) : List ZodIssue :=
  match lookupField fields key with
  | none => [⟨[key], "invalid_type", []⟩]
  | some (Json.str _) => []
  | some _ => [⟨[key], "invalid_type", []⟩]

/-- `z.number()` applied to field `key`. -/
def checkNumberField (fields : List (String × Json)) (key : String) : List ZodIssue :=
  match lookupField fields key with
  | none => [⟨[key], "invalid_type", []⟩]
  | some (Json.num _) => []
  | some _ => [⟨[key], "invalid_type", []⟩]

/-- Split a character list at the first occurrence of `sep`, returning
the characters before and after it. -/
def splitFirst (sep : Char) : List Char → Option (List Char × List Char)
  | [] => none
  | c :: cs =>
      if c = sep then some ([], cs)
      else (splitFirst sep cs).map (fun p => (c :: p.1, p.2))

/-- Split a character list into the groups delimited by `sep`. -/
def splitCharAll (sep : Char) : List Char → List (List Char)
  | [] => [[]]
  | c :: cs =>
      match splitCharAll sep cs with
      | [] => [[]]
      | g :: gs => if c = sep then [] :: g :: gs else (c :: g) :: gs

/-- Whether the character list contains two consecutive dots. -/
def hasDoubleDot : List Char → Bool
  | c1 :: c2 :: rest => (c1 == '.' && c2 == '.') || hasDoubleDot (c2 :: rest)
  | _ => false

/-- A character allowed in the local part of an email address by the
validator's email pattern: ASCII alphanumerics and _ + - . and the
apostrophe (39). -/
def isEmailLocalChar (c : Char) : Bool :=
  c.isAlphanum || c == '_' || c == '+' || c == '-' || c == '.' || c.toNat == 39

/-- A character allowed as the final local-part character (no dot). -/
def isEmailLocalLastChar (c : Char) : Bool :=
  c.isAlphanum || c == '_' || c == '+' || c == '-'

/-- The local part of an email address: non-empty, allowed characters, no
leading dot, no consecutive dots, and a non-dot final character. -/
def isEmailLocal (l : List Char) : Bool :=
  !l.isEmpty
    && (match l.head? with
        | some c => !(c == '.')
        | none => false)
    && !hasDoubleDot l
    && l.all isEmailLocalChar
    && (match l.getLast? with
        | some c => isEmailLocalLastChar c
        | none => false)

/-- The domain part of an email address: dot-separated labels, each
non-empty of alphanumerics and hyphens starting alphanumeric, the final
label at least two letters. -/
def isEmailDomain (d : List Char) : Bool :=
  let labels := splitCharAll '.' d
  labels.length ≥ 2
    && (match labels.getLast? with
        | some tld => tld.length ≥ 2 && tld.all Char.isAlpha
        | none => false)
    && labels.dropLast.all (fun lab =>
        !lab.isEmpty
          && lab.all (fun c => c.isAlphanum || c == '-')
          && (match lab.head? with
              | some c => c.isAlphanum
              | none => false))

/-- The email format check of the external validator (`z.string().email()`),
modelled after its email pattern: exactly one @ separating a well-formed
local part from a well-formed domain. -/
def isEmailStr (s : String) : Bool :=
  match splitFirst '@' s.data with
  | some (localPart, domainPart) =>
      !domainPart.contains '@' && isEmailLocal localPart && isEmailDomain domainPart
  | none => false

/-- The URL format check of the external validator (`z.string().url()`),
modelled as a non-empty alphabetic scheme followed by :// and a non-empty
remainder.  `urlSplit` cuts the string at the first "://". -/
def urlSplit : List Char → Option (List Char × List Char)
  | [] => none
  | c :: cs =>
      if c = ':' then
        match cs with
        | a :: b :: rest =>
            if a = '/' && b = '/' then some ([], rest)
            else (urlSplit cs).map (fun p => (c :: p.1, p.2))
        | _ => (urlSplit cs).map (fun p => (c :: p.1, p.2))
      else (urlSplit cs).map (fun p => (c :: p.1, p.2))

/-- The URL format check itself: see `urlSplit`. -/
def isUrlStr (s : String) : Bool :=
  match urlSplit s.data with
  | some (scheme, rest) => !scheme.isEmpty && scheme.all Char.isAlpha && !rest.isEmpty
  | none => false

/-- `z.string().email()` applied to field `key`. -/
def checkEmailField (fields : List (String × Json)) (key : String) : List ZodIssue :=
  match lookupField fields key with
  | none => [⟨[key], "invalid_type", []⟩]
  | some (Json.str s) => if isEmailStr s then [] else [⟨[key], "invalid_string", []⟩]
  | some _ => [⟨[key], "invalid_type", []⟩]

/-- `z.string().url()` applied to field `key`. -/
def checkUrlField (fields : List (String × Json)) (key : String) : List ZodIssue :=
  match lookupField fields key with
  | none => [⟨[key], "invalid_type", []⟩]
  | some (Json.str s) => if isUrlStr s then [] else [⟨[key], "invalid_string", []⟩]
  | some _ => [⟨[key], "invalid_type", []⟩]

/-- `z.enum(["male", "female"])` applied to field `key`. -/
def checkGenderField (fields : List (String × Json)) (key : String) : List ZodIssue :=
  match lookupField fields key with
  | none => [⟨[key], "invalid_type", []⟩]
  | some (Json.str s) =>
      if s = "male" || s = "female" then [] else [⟨[key], "invalid_enum_value", []⟩]
  | some _ => [⟨[key], "invalid_type", []⟩]

/-- All per-field issues of `LOGIN_API_SCHEMA`, one checker per declared
field in declaration order (`schemas/schema.ts`). -/
def loginSchemaFieldIssues (fields : List (String × Json)) : List ZodIssue :=
  checkStringField fields "accessToken"
    ++ checkStringField fields "refreshToken"
    ++ checkNumberField fields "id"
    ++ checkStringField fields "username"
    ++ checkEmailField fields "email"
    ++ checkStringField fields "firstName"
    ++ checkStringField fields "lastName"
    ++ checkGenderField fields "gender"
    ++ checkUrlField fields "image"

/-- The keys of the payload not declared by the schema; `.strict()`
rejects a payload carrying any of them. -/
def unrecognizedKeys (fields : List (String × Json)) : List String :=
  (fields.map Prod.fst).filter (fun k => !LOGIN_SCHEMA_KEYS.contains k)

/-- `LOGIN_API_SCHEMA.parse` (`schemas/schema.ts`): a strict object schema
over the nine declared fields.  A non-object payload fails; a conforming
object is returned unchanged; otherwise every non-conforming field
contributes an issue and unrecognized keys contribute a strictness
issue. -/
def LOGIN_API_SCHEMA.parse (j : Json) : Except (List ZodIssue) Json :=
  match j with
  | .obj fields =>
      let issues :=
        loginSchemaFieldIssues fields
          ++ (if (unrecognizedKeys fields).isEmpty then []
              else [⟨[], "unrecognized_keys", unrecognizedKeys fields⟩])
      if issues.isEmpty then .ok j else .error issues
  | _ => .error [⟨[], "invalid_type", []⟩]

/-! Concrete values used by the witnesses. -/

/-- A well-formed login response payload of the shape the login endpoint
documents (spec section 6). -/
def goodLoginFields : List (String × Json) :=
  [("accessToken", .str "tokenA"), ("refreshToken", .str "tokenR"),
   ("id", .num 1), ("username", .str "emilys"),
   ("email", .str "emily.johnson@x.dummyjson.com"),
   ("firstName", .str "Emily"), ("lastName", .str "Johnson"),
   ("gender", .str "female"),
   ("image", .str "https://dummyjson.com/icon/emilys/128")]

/-- The well-formed login payload as a JSON value. -/
def goodLoginPayload : Json := Json.obj goodLoginFields

/-- A transport on which every request succeeds with the well-formed login
payload. -/
def tLoginOk : Transport := fun _ => .success 200 (some goodLoginPayload)

/-- A transport on which every request fails at the network level. -/
def tFail : Transport := fun _ => .failure ⟨"getaddrinfo ENOTFOUND"⟩

/-- A transport answering 404 with a non-JSON body, as the
`https://dummyjson.com/http/404/Hello_Peter` path of the `error API` test. -/
def t404 : Transport := fun _ => .success 404 none

/-- The request the `error API` test issues. -/
def demoRequest404 : Request :=
  getRequestDescriptor "https://dummyjson.com/http/404/Hello_Peter" [] []

/- ------------------------------------------------------------------ -/

/-- C1: a non-2xx HTTP status (e.g. 404) is returned to the caller as an
ordinary payload — the parsed body, or the raw response metadata carrying
that status when the body is not JSON-parseable — and a `TransportError`
arises exactly when the transport itself fails, never from the status
code.  Every verb operation routes through `sendRequest` on its
descriptor. -/
theorem requestClient_non2xx_surfaced (t : Transport) (req : Request) :
    (∀ status jsonBody, t req = .success status jsonBody →
        sendRequest t req = .ok (jsonBody.getD (rawResponse status)) ∧
        jsonGet (rawResponse status) "status" = some (Json.num status)) ∧
    (∀ e, sendRequest t req = .error e ↔ t req = .failure e) ∧
    (∀ url headers queryParams,
        getRequest t url headers queryParams
          = sendRequest t (getRequestDescriptor url headers queryParams)) ∧
    (∀ url headers body queryParams,
        postRequest t url headers body queryParams
          = sendRequest t (postRequestDescriptor url headers body queryParams)) ∧
    (∀ url headers body queryParams,
        putRequest t url headers body queryParams
          = sendRequest t (putRequestDescriptor url headers body queryParams)) ∧
    (∀ url headers body queryParams,
        patchRequest t url headers body queryParams
          = sendRequest t (patchRequestDescriptor url headers body queryParams)) ∧
    (∀ url headers body queryParams,
        deleteRequest t url headers body queryParams
          = sendRequest t (deleteRequestDescriptor url headers body queryParams)) := by
  refine ⟨?_, ?_, fun _ _ _ => rfl, fun _ _ _ _ => rfl, fun _ _ _ _ => rfl,
    fun _ _ _ _ => rfl, fun _ _ _ _ => rfl⟩
  · intro status jsonBody h
    refine ⟨?_, rfl⟩
    cases jsonBody <;> simp [sendRequest, h]
  · intro e
    cases h : t req with
    | success status jsonBody => cases jsonBody <;> simp [sendRequest, h]
    | failure e2 => simp [sendRequest, h]

/-- C1 witness: on the known-404 path with a non-JSON body the call
resolves to the raw response value whose `status` field is 404, without a
`TransportError`. -/
theorem requestClient_non2xx_surfaced_witness :
    sendRequest t404 demoRequest404 = .ok (rawResponse 404) ∧
    jsonGet (rawResponse 404) "status" = some (Json.num 404) := by
  have h := (requestClient_non2xx_surfaced t404 demoRequest404).1 404 none rfl
  exact ⟨h.1, h.2⟩

/-- C6: for every verb, the users URL with queryParams page=1, limit=10
yields exactly "https://api.example.com/users?page=1&limit=10"; a
non-empty queryParams mapping appends a `?`-prefixed `&`-joined query
string in insertion order, and an empty one leaves the URL unchanged. -/
theorem queryString_construction :
    (∀ headers (body : Json) (obody : Option Json),
      (getRequestDescriptor "https://api.example.com/users" headers
          [("page", .num 1), ("limit", .num 10)]).url
        = "https://api.example.com/users?page=1&limit=10" ∧
      (postRequestDescriptor "https://api.example.com/users" headers body
          [("page", .num 1), ("limit", .num 10)]).url
        = "https://api.example.com/users?page=1&limit=10" ∧
      (putRequestDescriptor "https://api.example.com/users" headers body
          [("page", .num 1), ("limit", .num 10)]).url
        = "https://api.example.com/users?page=1&limit=10" ∧
      (patchRequestDescriptor "https://api.example.com/users" headers body
          [("page", .num 1), ("limit", .num 10)]).url
        = "https://api.example.com/users?page=1&limit=10" ∧
      (deleteRequestDescriptor "https://api.example.com/users" headers obody
          [("page", .num 1), ("limit", .num 10)]).url
        = "https://api.example.com/users?page=1&limit=10") ∧
    (∀ url (queryParams : List (String × QueryVal)), queryParams ≠ [] →
        buildUrl url queryParams = url ++ "?" ++ buildQueryString queryParams) ∧
    (∀ url, buildUrl url [] = url) := by
  refine ⟨fun _ _ _ => ⟨rfl, rfl, rfl, rfl, rfl⟩, ?_, fun _ => rfl⟩
  intro url queryParams hne
  cases queryParams with
  | nil => exact absurd rfl hne
  | cons p rest => rfl

/-- C6 witness: the query-string law applied at the concrete example and
at the empty mapping. -/
theorem queryString_construction_witness :
    buildUrl "https://api.example.com/users"
        [("page", QueryVal.num 1), ("limit", QueryVal.num 10)]
      = "https://api.example.com/users" ++ "?"
          ++ buildQueryString [("page", QueryVal.num 1), ("limit", QueryVal.num 10)] ∧
    buildUrl "https://api.example.com/users" [] = "https://api.example.com/users" :=
  ⟨queryString_construction.2.1 "https://api.example.com/users"
      [("page", QueryVal.num 1), ("limit", QueryVal.num 10)] (by simp),
   queryString_construction.2.2 "https://api.example.com/users"⟩

/-- C7: a POST/PUT/PATCH request carrying a body and no caller-supplied
Content-Type header gets the default `Content-Type: application/json` in
its effective headers; when the caller supplies a Content-Type entry, the
effective headers are exactly the caller's, so the caller's value stands
and no default is added. -/
theorem contentType_default_and_override (url : String)
    (headers : List (String × String)) (body : Json)
    (queryParams : List (String × QueryVal)) :
    (hasHeaderKey headers "Content-Type" = false →
      (postRequestDescriptor url headers body queryParams).headers
          = ("Content-Type", "application/json") :: headers ∧
      (putRequestDescriptor url headers body queryParams).headers
          = ("Content-Type", "application/json") :: headers ∧
      (patchRequestDescriptor url headers body queryParams).headers
          = ("Content-Type", "application/json") :: headers ∧
      ("Content-Type", "application/json")
          ∈ (postRequestDescriptor url headers body queryParams).headers) ∧
    (hasHeaderKey headers "Content-Type" = true →
      (postRequestDescriptor url headers body queryParams).headers = headers ∧
      (putRequestDescriptor url headers body queryParams).headers = headers ∧
      (patchRequestDescriptor url headers body queryParams).headers = headers) := by
  constructor
  · intro h
    refine ⟨?_, ?_, ?_, ?_⟩ <;>
      simp [postRequestDescriptor, putRequestDescriptor, patchRequestDescriptor,
        effectiveHeaders, h]
  · intro h
    refine ⟨?_, ?_, ?_⟩ <;>
      simp [postRequestDescriptor, putRequestDescriptor, patchRequestDescriptor,
        effectiveHeaders, h]

/-- C7 witness: with no caller headers the POST carries the JSON default;
with an explicit Content-Type the caller's value is kept unchanged. -/
theorem contentType_default_and_override_witness :
    (postRequestDescriptor loginUrl [] loginData []).headers
        = [("Content-Type", "application/json")] ∧
    (postRequestDescriptor loginUrl [("Content-Type", "text/plain")] loginData []).headers
        = [("Content-Type", "text/plain")] := by
  have h1 := (contentType_default_and_override loginUrl [] loginData []).1 rfl
  have h2 :=
    (contentType_default_and_override loginUrl [("Content-Type", "text/plain")] loginData []).2 rfl
  exact ⟨h1.1, h2.1⟩

/-- C10: the `apiHelper` fixture issues no request of its own before
yielding, yields exactly the freshly allocated `ApiHelper`, and two
consecutive invocations yield distinct instances. -/
theorem apiHelperFixture_fresh_and_requestless (alloc : Nat) :
    (apiHelperFixture alloc).2.2 = [] ∧
    (apiHelperFixture alloc).1 = (ApiHelper.new alloc).1 ∧
    (apiHelperFixture alloc).1 ≠ (apiHelperFixture (apiHelperFixture alloc).2.1).1 := by
  refine ⟨rfl, rfl, ?_⟩
  simp only [apiHelperFixture, ApiHelper.new, ne_eq, ApiHelper.mk.injEq]
  omega

/-- C2: the authenticated fixture's setup issues exactly one request — a
POST to the login endpoint with the fixed credentials as body and
`Content-Type: application/json` among its headers — and yields a record
holding the freshly constructed client, the `accessToken` and
`refreshToken` fields read verbatim off the login response, and the raw
response itself. -/
theorem authenticatedFixture_one_login_and_yield (t : Transport) (alloc : Nat)
    (response : Json) (h : sendRequest t loginRequest = .ok response) :
    (authenticatedApiHelperSetup t alloc).2.2 = [loginRequest] ∧
    loginRequest.method = .POST ∧
    loginRequest.url = loginUrl ∧
    loginRequest.body = some loginData ∧
    ("Content-Type", "application/json") ∈ loginRequest.headers ∧
    (authenticatedApiHelperSetup t alloc).1 =
      .ok ⟨(ApiHelper.new alloc).1, jsonGet response "accessToken",
           jsonGet response "refreshToken", response⟩ := by
  refine ⟨?_, rfl, rfl, rfl, ?_, ?_⟩
  · simp [authenticatedApiHelperSetup, h]
  · simp [loginRequest, postRequestDescriptor, effectiveHeaders, hasHeaderKey,
      headerKeyMatches]
  · simp [authenticatedApiHelperSetup, h, ApiHelper.new]

/-- C2 witness: the setup run against a transport answering the
well-formed login payload. -/
theorem authenticatedFixture_one_login_and_yield_witness :
    (authenticatedApiHelperSetup tLoginOk 0).2.2 = [loginRequest] ∧
    loginRequest.method = .POST ∧
    loginRequest.url = loginUrl ∧
    loginRequest.body = some loginData ∧
    ("Content-Type", "application/json") ∈ loginRequest.headers ∧
    (authenticatedApiHelperSetup tLoginOk 0).1 =
      .ok ⟨(ApiHelper.new 0).1, jsonGet goodLoginPayload "accessToken",
           jsonGet goodLoginPayload "refreshToken", goodLoginPayload⟩ :=
  authenticatedFixture_one_login_and_yield tLoginOk 0 goodLoginPayload rfl

/-- C3: whenever setup succeeds, the fixture-wrapped run executes the
cleanup phase exactly once, immediately after the consumer finishes —
whatever outcome the (arbitrary) consumer produces. -/
theorem authenticatedFixture_teardown_exactly_once (t : Transport) (alloc : Nat)
    (consumer : AuthenticatedApiHelper → ConsumerOutcome)
    (ctx : AuthenticatedApiHelper)
    (hok : (authenticatedApiHelperSetup t alloc).1 = .ok ctx) :
    (runAuthenticatedFixture t alloc consumer).1.count .teardownRun = 1 ∧
    (runAuthenticatedFixture t alloc consumer).1 =
      [.clientCreated, .loginIssued, .consumerStarted, .consumerFinished, .teardownRun] := by
  have htrace : (runAuthenticatedFixture t alloc consumer).1 =
      [.clientCreated, .loginIssued, .consumerStarted, .consumerFinished, .teardownRun] := by
    simp [runAuthenticatedFixture, hok]
  exact ⟨by rw [htrace]; rfl, htrace⟩

/-- C3 witness: a consumer that raises an unexpected fault still gets the
single teardown after it finishes. -/
theorem authenticatedFixture_teardown_exactly_once_witness :
    (runAuthenticatedFixture tLoginOk 0 (fun _ => .unexpectedFault)).1.count .teardownRun = 1 ∧
    (runAuthenticatedFixture tLoginOk 0 (fun _ => .unexpectedFault)).1 =
      [.clientCreated, .loginIssued, .consumerStarted, .consumerFinished, .teardownRun] :=
  authenticatedFixture_teardown_exactly_once tLoginOk 0 (fun _ => .unexpectedFault)
    ⟨⟨0⟩, some (Json.str "tokenA"), some (Json.str "tokenR"), goodLoginPayload⟩ rfl

/-- C4: if the login call fails, the consumer never runs, the lifecycle
goes UNSTARTED, LOGGING_IN, FAILED, DONE without ever reaching READY, the
login is issued exactly once (no retry), and the run reports a setup
error, a result distinct from a consumer assertion failure or fault. -/
theorem authenticatedFixture_login_failure_aborts (t : Transport) (alloc : Nat)
    (consumer : AuthenticatedApiHelper → ConsumerOutcome) (e : TransportError)
    (hfail : sendRequest t loginRequest = .error e) :
    (runAuthenticatedFixture t alloc consumer).1 =
      [.clientCreated, .loginIssued, .setupFailed] ∧
    FixtureEvent.consumerStarted ∉ (runAuthenticatedFixture t alloc consumer).1 ∧
    (runAuthenticatedFixture t alloc consumer).2.1 =
      [.UNSTARTED, .LOGGING_IN, .FAILED, .DONE] ∧
    ProvisionState.READY ∉ (runAuthenticatedFixture t alloc consumer).2.1 ∧
    (runAuthenticatedFixture t alloc consumer).1.count .loginIssued = 1 ∧
    (runAuthenticatedFixture t alloc consumer).2.2 = .setupError e ∧
    (runAuthenticatedFixture t alloc consumer).2.2 ≠ .consumerAssertionFailed ∧
    (runAuthenticatedFixture t alloc consumer).2.2 ≠ .consumerFaulted := by
  have hsetup : (authenticatedApiHelperSetup t alloc).1 = .error e := by
    simp [authenticatedApiHelperSetup, hfail]
  have hrun : runAuthenticatedFixture t alloc consumer =
      ([.clientCreated, .loginIssued, .setupFailed],
       [.UNSTARTED, .LOGGING_IN, .FAILED, .DONE],
       .setupError e) := by
    simp [runAuthenticatedFixture, hsetup]
  rw [hrun]
  refine ⟨rfl, by simp, rfl, by simp, rfl, rfl, by simp, by simp⟩

/-- C4 witness: the run against a transport whose login call fails with a
DNS error. -/
theorem authenticatedFixture_login_failure_aborts_witness :
    (runAuthenticatedFixture tFail 0 (fun _ => .normal)).1 =
      [.clientCreated, .loginIssued, .setupFailed] ∧
    FixtureEvent.consumerStarted ∉ (runAuthenticatedFixture tFail 0 (fun _ => .normal)).1 ∧
    (runAuthenticatedFixture tFail 0 (fun _ => .normal)).2.1 =
      [.UNSTARTED, .LOGGING_IN, .FAILED, .DONE] ∧
    ProvisionState.READY ∉ (runAuthenticatedFixture tFail 0 (fun _ => .normal)).2.1 ∧
    (runAuthenticatedFixture tFail 0 (fun _ => .normal)).1.count .loginIssued = 1 ∧
    (runAuthenticatedFixture tFail 0 (fun _ => .normal)).2.2 =
      .setupError ⟨"getaddrinfo ENOTFOUND"⟩ ∧
    (runAuthenticatedFixture tFail 0 (fun _ => .normal)).2.2 ≠ .consumerAssertionFailed ∧
    (runAuthenticatedFixture tFail 0 (fun _ => .normal)).2.2 ≠ .consumerFaulted :=
  authenticatedFixture_login_failure_aborts tFail 0 (fun _ => .normal)
    ⟨"getaddrinfo ENOTFOUND"⟩ rfl

/-- C5: two independent provisioning invocations each construct their own
fresh client and each issue their own login request; the yielded clients
are distinct, each record's tokens come verbatim from that invocation's
own login response, and the token pairs differ whenever the responses'
tokens differ — nothing is cached or shared. -/
theorem authenticatedFixture_isolation (t1 t2 : Transport) (alloc : Nat)
    (r1 r2 : Json)
    (h1 : sendRequest t1 loginRequest = .ok r1)
    (h2 : sendRequest t2 loginRequest = .ok r2) :
    ∃ ctx1 ctx2 : AuthenticatedApiHelper,
      (authenticatedApiHelperSetup t1 alloc).1 = .ok ctx1 ∧
      (authenticatedApiHelperSetup t2 (authenticatedApiHelperSetup t1 alloc).2.1).1
          = .ok ctx2 ∧
      ctx1.helper ≠ ctx2.helper ∧
      (authenticatedApiHelperSetup t1 alloc).2.2 = [loginRequest] ∧
      (authenticatedApiHelperSetup t2 (authenticatedApiHelperSetup t1 alloc).2.1).2.2
          = [loginRequest] ∧
      ctx1.accessToken = jsonGet r1 "accessToken" ∧
      ctx1.refreshToken = jsonGet r1 "refreshToken" ∧
      ctx2.accessToken = jsonGet r2 "accessToken" ∧
      ctx2.refreshToken = jsonGet r2 "refreshToken" ∧
      (jsonGet r1 "accessToken" ≠ jsonGet r2 "accessToken" →
        (ctx1.accessToken, ctx1.refreshToken) ≠ (ctx2.accessToken, ctx2.refreshToken)) := by
  refine ⟨⟨⟨alloc⟩, jsonGet r1 "accessToken", jsonGet r1 "refreshToken", r1⟩,
          ⟨⟨alloc + 1⟩, jsonGet r2 "accessToken", jsonGet r2 "refreshToken", r2⟩,
          ?_, ?_, ?_, ?_, ?_, rfl, rfl, rfl, rfl, ?_⟩
  · simp [authenticatedApiHelperSetup, h1, ApiHelper.new]
  · simp [authenticatedApiHelperSetup, h1, h2, ApiHelper.new]
  · simp only [ne_eq, ApiHelper.mk.injEq]
    omega
  · simp [authenticatedApiHelperSetup, h1]
  · simp [authenticatedApiHelperSetup, h1, h2]
  · intro hne heq
    exact hne (congrArg Prod.fst heq)

/-- A second well-formed login payload with different tokens, for the
isolation witness. -/
def otherLoginPayload : Json :=
  Json.obj [("accessToken", .str "tokenA2"), ("refreshToken", .str "tokenR2"),
            ("id", .num 1), ("username", .str "emilys"),
            ("email", .str "emily.johnson@x.dummyjson.com"),
            ("firstName", .str "Emily"), ("lastName", .str "Johnson"),
            ("gender", .str "female"),
            ("image", .str "https://dummyjson.com/icon/emilys/128")]

/-- A transport answering the second login payload. -/
def tLoginOther : Transport := fun _ => .success 200 (some otherLoginPayload)

/-- C5 witness: two runs against transports answering different token
pairs. -/
theorem authenticatedFixture_isolation_witness :
    ∃ ctx1 ctx2 : AuthenticatedApiHelper,
      (authenticatedApiHelperSetup tLoginOk 0).1 = .ok ctx1 ∧
      (authenticatedApiHelperSetup tLoginOther (authenticatedApiHelperSetup tLoginOk 0).2.1).1
          = .ok ctx2 ∧
      ctx1.helper ≠ ctx2.helper ∧
      (authenticatedApiHelperSetup tLoginOk 0).2.2 = [loginRequest] ∧
      (authenticatedApiHelperSetup tLoginOther (authenticatedApiHelperSetup tLoginOk 0).2.1).2.2
          = [loginRequest] ∧
      ctx1.accessToken = jsonGet goodLoginPayload "accessToken" ∧
      ctx1.refreshToken = jsonGet goodLoginPayload "refreshToken" ∧
      ctx2.accessToken = jsonGet otherLoginPayload "accessToken" ∧
      ctx2.refreshToken = jsonGet otherLoginPayload "refreshToken" ∧
      (jsonGet goodLoginPayload "accessToken" ≠ jsonGet otherLoginPayload "accessToken" →
        (ctx1.accessToken, ctx1.refreshToken) ≠ (ctx2.accessToken, ctx2.refreshToken)) :=
  authenticatedFixture_isolation tLoginOk tLoginOther 0 goodLoginPayload otherLoginPayload
    rfl rfl

/-- C9: when the login response lacks `accessToken`/`refreshToken` fields
(e.g. an error payload surfaced as a normal non-2xx response), setup does
not fail: it yields a record whose token fields are `undefined` (`none`),
the consumer runs, and the run never reports a setup error. -/
theorem authenticatedFixture_missing_tokens_yield_undefined (t : Transport)
    (alloc : Nat) (consumer : AuthenticatedApiHelper → ConsumerOutcome)
    (response : Json)
    (hok : sendRequest t loginRequest = .ok response)
    (hA : jsonGet response "accessToken" = none)
    (hR : jsonGet response "refreshToken" = none) :
    ∃ ctx : AuthenticatedApiHelper,
      (authenticatedApiHelperSetup t alloc).1 = .ok ctx ∧
      ctx.accessToken = none ∧ ctx.refreshToken = none ∧ ctx.response = response ∧
      FixtureEvent.consumerStarted ∈ (runAuthenticatedFixture t alloc consumer).1 ∧
      (∀ e, (runAuthenticatedFixture t alloc consumer).2.2 ≠ .setupError e) := by
  have hsetup : (authenticatedApiHelperSetup t alloc).1 =
      .ok ⟨⟨alloc⟩, none, none, response⟩ := by
    simp [authenticatedApiHelperSetup, hok, hA, hR, ApiHelper.new]
  refine ⟨⟨⟨alloc⟩, none, none, response⟩, hsetup, rfl, rfl, rfl, ?_, ?_⟩
  · simp [runAuthenticatedFixture, hsetup]
  · intro e
    simp only [runAuthenticatedFixture, hsetup]
    cases consumer ⟨⟨alloc⟩, none, none, response⟩ <;> simp

/-- The error payload the login endpoint returns on bad credentials,
carried by an ordinary non-2xx response. -/
def badCredentialsPayload : Json :=
  Json.obj [("message", Json.str "Invalid credentials")]

/-- A transport answering status 400 with the error payload. -/
def tLoginRejected : Transport := fun _ => .success 400 (some badCredentialsPayload)

/-- C9 witness: a login answered by a 400 error payload still yields a
record (with undefined tokens) and runs the consumer. -/
theorem authenticatedFixture_missing_tokens_yield_undefined_witness :
    ∃ ctx : AuthenticatedApiHelper,
      (authenticatedApiHelperSetup tLoginRejected 0).1 = .ok ctx ∧
      ctx.accessToken = none ∧ ctx.refreshToken = none ∧
      ctx.response = badCredentialsPayload ∧
      FixtureEvent.consumerStarted
          ∈ (runAuthenticatedFixture tLoginRejected 0 (fun _ => .normal)).1 ∧
      (∀ e, (runAuthenticatedFixture tLoginRejected 0 (fun _ => .normal)).2.2
          ≠ .setupError e) :=
  authenticatedFixture_missing_tokens_yield_undefined tLoginRejected 0 (fun _ => .normal)
    badCredentialsPayload rfl rfl rfl

/-- C8: the strict login schema returns the payload unchanged exactly on
success; the concrete well-formed payload validates; a payload missing the
`email` field fails with an issue whose path names `email`; and a payload
carrying any key outside the declared set fails with a strictness issue
listing that key. -/
theorem loginSchema_strict_validation :
    (∀ j v, LOGIN_API_SCHEMA.parse j = .ok v → v = j) ∧
    LOGIN_API_SCHEMA.parse goodLoginPayload = .ok goodLoginPayload ∧
    (∀ fields, lookupField fields "email" = none →
      ∃ issues, LOGIN_API_SCHEMA.parse (Json.obj fields) = .error issues ∧
        ZodIssue.mk ["email"] "invalid_type" [] ∈ issues) ∧
    (∀ fields key, key ∈ fields.map Prod.fst → key ∉ LOGIN_SCHEMA_KEYS →
      ∃ issues, LOGIN_API_SCHEMA.parse (Json.obj fields) = .error issues ∧
        ∃ iss ∈ issues, iss.code = "unrecognized_keys" ∧ key ∈ iss.keys) := by
  refine ⟨?_, rfl, ?_, ?_⟩
  · intro j v h
    cases j <;> simp [LOGIN_API_SCHEMA.parse] at h
    case obj fields =>
      split at h
      · exact (Except.ok.injEq _ _ ▸ h).symm
      · exact absurd h (by simp)
  · intro fields hnone
    have hcheck : checkEmailField fields "email" = [⟨["email"], "invalid_type", []⟩] := by
      simp [checkEmailField, hnone]
    have hmem : ZodIssue.mk ["email"] "invalid_type" []
        ∈ loginSchemaFieldIssues fields := by
      simp [loginSchemaFieldIssues, hcheck]
    refine ⟨loginSchemaFieldIssues fields
        ++ (if (unrecognizedKeys fields).isEmpty then []
            else [⟨[], "unrecognized_keys", unrecognizedKeys fields⟩]), ?_,
      List.mem_append_left _ hmem⟩
    have hne : (loginSchemaFieldIssues fields
        ++ (if (unrecognizedKeys fields).isEmpty then []
            else [⟨[], "unrecognized_keys", unrecognizedKeys fields⟩])) ≠ [] :=
      List.ne_nil_of_mem (List.mem_append_left _ hmem)
    simp only [LOGIN_API_SCHEMA.parse, List.isEmpty_iff, hne]
    simp [LOGIN_API_SCHEMA.parse, List.isEmpty_iff]
    intro hfe
    rw [hfe] at hmem
    simp at hmem
  · intro fields key hkey hnotdecl
    have hk : key ∈ unrecognizedKeys fields := by
      simp [unrecognizedKeys, List.mem_filter, hkey]
      exact hnotdecl
    have hksne : unrecognizedKeys fields ≠ [] := List.ne_nil_of_mem hk
    have htail : (if (unrecognizedKeys fields).isEmpty then []
        else [ZodIssue.mk [] "unrecognized_keys" (unrecognizedKeys fields)])
        = [ZodIssue.mk [] "unrecognized_keys" (unrecognizedKeys fields)] := by
      simp [List.isEmpty_iff, hksne]
    have hmem : ZodIssue.mk [] "unrecognized_keys" (unrecognizedKeys fields)
        ∈ loginSchemaFieldIssues fields
          ++ (if (unrecognizedKeys fields).isEmpty then []
              else [ZodIssue.mk [] "unrecognized_keys" (unrecognizedKeys fields)]) := by
      rw [htail]
      exact List.mem_append_right _ (by simp)
    refine ⟨loginSchemaFieldIssues fields
        ++ (if (unrecognizedKeys fields).isEmpty then []
            else [⟨[], "unrecognized_keys", unrecognizedKeys fields⟩]), ?_,
      ⟨⟨[], "unrecognized_keys", unrecognizedKeys fields⟩, hmem, rfl, hk⟩⟩
    have hne : (loginSchemaFieldIssues fields
        ++ (if (unrecognizedKeys fields).isEmpty then []
            else [ZodIssue.mk [] "unrecognized_keys" (unrecognizedKeys fields)])) ≠ [] :=
      List.ne_nil_of_mem hmem
    simp [LOGIN_API_SCHEMA.parse, List.isEmpty_iff]
    intro _
    exact hksne

/-- The well-formed payload with its `email` field omitted. -/
def loginFieldsMissingEmail : List (String × Json) :=
  [("accessToken", .str "tokenA"), ("refreshToken", .str "tokenR"),
   ("id", .num 1), ("username", .str "emilys"),
   ("firstName", .str "Emily"), ("lastName", .str "Johnson"),
   ("gender", .str "female"),
   ("image", .str "https://dummyjson.com/icon/emilys/128")]

/-- The well-formed payload with one undeclared field added. -/
def loginFieldsWithExtra : List (String × Json) :=
  goodLoginFields ++ [("extra", Json.bool true)]

/-- C8 witness: the payload missing `email` fails naming `email`, and the
payload with an extra field fails with a strictness issue listing it. -/
theorem loginSchema_strict_validation_witness :
    (∃ issues, LOGIN_API_SCHEMA.parse (Json.obj loginFieldsMissingEmail) = .error issues ∧
        ZodIssue.mk ["email"] "invalid_type" [] ∈ issues) ∧
    (∃ issues, LOGIN_API_SCHEMA.parse (Json.obj loginFieldsWithExtra) = .error issues ∧
        ∃ iss ∈ issues, iss.code = "unrecognized_keys" ∧ "extra" ∈ iss.keys) :=
  ⟨loginSchema_strict_validation.2.2.1 loginFieldsMissingEmail rfl,
   loginSchema_strict_validation.2.2.2 loginFieldsWithExtra "extra"
     (by simp [loginFieldsWithExtra, goodLoginFields]) (by decide)⟩

end PWApi
